import Mathlib

/-!
Verification of the redis distributed-locking subsystem
(`redis_distributed_locking/docker` and `redis_distributed_locking/aws_impl/core`).

The key-value store is modelled as an association list from keys to
(value, ttl) pairs; TTL is recorded but never advanced (no claim under
verification depends on clock progress, only on which TTL value a call
stores). Each Python method of `RedisManager`, `LeaderElection` and the
config managers is embedded as a pure Lean function over this store.
External interference (another process mutating the store while a loop
sleeps) is modelled by a list of store transformers, one applied per loop
iteration; the list's length bounds the number of iterations observed.
-/

namespace RedisLocking

/-- The shared key-value store: key, value, remaining TTL in seconds. -/
abbrev Store := List (String × String × Nat)

/-- Lookup of a key's entry (value and TTL); first binding wins. -/
def get_entry : Store → String → Option (String × Nat)
  | [], _ => none
  | (k2, v, t) :: rest, k => if k2 = k then some (v, t) else get_entry rest k

/-- `RedisManager.get_value`: GET, i.e. the stored value or absence. -/
def get_value (s : Store) (k : String) : Option String :=
  (get_entry s k).map Prod.fst

/-- `RedisManager.delete`: unconditional DEL of a key. -/
def delete : Store → String → Store
  | [], _ => []
  | (k2, v, t) :: rest, k =>
    if k2 = k then delete rest k else (k2, v, t) :: delete rest k

/-- `RedisManager.set_value`: unconditional SET with expiry `ttl`. -/
def set_value (s : Store) (k v : String) (ttl : Nat) : Store :=
  (k, v, ttl) :: delete s k

/-- `RedisManager.acquire_lock`: SET key value NX EX ttl. Creates the key
iff it is absent; the Bool is the redis reply (true on creation, nil —
here false — when the key already exists). -/
def acquire_lock (s : Store) (k v : String) (ttl : Nat) : Store × Bool :=
  match get_value s k with
  | none => ((k, v, ttl) :: s, true)
  | some _ => (s, false)

/-- `RedisManager.release_lock`: the Lua script
`if GET key == value then DEL key else 0`, an atomic compare-and-delete. -/
def release_lock (s : Store) (k v : String) : Store :=
  if get_value s k = some v then delete s k else s

/-- Python truthiness of an optional bytes value: `None` and the empty
string are falsy, every other string is truthy. -/
def truthy : Option String → Bool
  | none => false
  | some v => if v = "" then false else true

/- ### Store lemmas -/

theorem get_value_nil (k : String) : get_value [] k = none := rfl

theorem get_entry_delete_self (s : Store) (k : String) :
    get_entry (delete s k) k = none := by
  induction s with
  | nil => rfl
  | cons hd tl ih =>
    obtain ⟨k2, v, t⟩ := hd
    by_cases h : k2 = k
    · simp [delete, h, ih]
    · simp [delete, get_entry, h, ih]

theorem get_value_delete_self (s : Store) (k : String) :
    get_value (delete s k) k = none := by
  simp [get_value, get_entry_delete_self]

theorem get_entry_delete_other (s : Store) (k k2 : String) (h : k2 ≠ k) :
    get_entry (delete s k) k2 = get_entry s k2 := by
  induction s with
  | nil => rfl
  | cons hd tl ih =>
    obtain ⟨k3, v, t⟩ := hd
    by_cases hk : k3 = k
    · subst hk
      have : ¬ (k3 = k2) := fun hc => h (hc ▸ rfl)
      simp [delete, get_entry, this, ih]
    · by_cases hk2 : k3 = k2
      · subst hk2
        simp [delete, get_entry, hk, h]
      · simp [delete, get_entry, hk, hk2, ih]

theorem get_value_delete_other (s : Store) (k k2 : String) (h : k2 ≠ k) :
    get_value (delete s k) k2 = get_value s k2 := by
  simp [get_value, get_entry_delete_other s k k2 h]

theorem get_value_cons_self (s : Store) (k v : String) (t : Nat) :
    get_value ((k, v, t) :: s) k = some v := by
  simp [get_value, get_entry]

/-- Compare-and-delete applied twice is the same as applied once:
after a matching first application the key is gone, so the second
application's guard fails; after a non-matching first application the
store is unchanged. -/
theorem release_lock_idem (s : Store) (k v : String) :
    release_lock (release_lock s k v) k v = release_lock s k v := by
  by_cases h : get_value s k = some v
  · have h1 : release_lock s k v = delete s k := by simp [release_lock, h]
    have h2 : get_value (delete s k) k = none := get_value_delete_self s k
    rw [h1]
    simp [release_lock, h2]
  · have h1 : release_lock s k v = s := by simp [release_lock, h]
    rw [h1]
    simp [release_lock, h]

/- ### LeaderElection: derived keys (both variants derive them identically) -/

/-- `self.leader_key = unique_id + "_leader"`. -/
def leader_key (uid : String) : String := uid ++ "_leader"

/-- `self.heartbeat_key = "heartbeat:" + self.leader_key`. -/
def heartbeat_key (uid : String) : String := "heartbeat:" ++ leader_key uid

/-- `self.unique_id = unique_id + "_" + socket.gethostname()`. -/
def self_id (uid inst : String) : String := uid ++ "_" ++ inst

/-- `LeaderElection.acquire_leader`: SET-NX of the leader key to this
process's id with TTL 120 seconds. -/
def acquire_leader (uid inst : String) (s : Store) : Store × Bool :=
  acquire_lock s (leader_key uid) (self_id uid inst) 120

/-- `LeaderElection.elect_leader`: read the leader key; attempt
`acquire_leader` only when the read returned `None`, discarding the
acquire's reply; otherwise do nothing. -/
def elect_leader (uid inst : String) (s : Store) : Store :=
  match get_value s (leader_key uid) with
  | none => (acquire_leader uid inst s).1
  | some _ => s

/-- One election attempt together with the acquire reply it observed
(false when the preceding read saw an existing leader and no acquire was
issued). Mirrors `elect_leader` with the discarded reply kept. -/
def elect_attempt (uid inst : String) (s : Store) : Store × Bool :=
  match get_value s (leader_key uid) with
  | none => acquire_leader uid inst s
  | some _ => (s, false)

/-- A sequence of `elect_leader` attempts by processes `insts` against the
same task id, counting how many acquires succeeded. -/
def elect_count (uid : String) : List String → Store → Store × Nat
  | [], s => (s, 0)
  | inst :: rest, s =>
    ((elect_count uid rest (elect_attempt uid inst s).1).1,
     (if (elect_attempt uid inst s).2 then 1 else 0)
       + (elect_count uid rest (elect_attempt uid inst s).1).2)

/-- `LeaderElection.i_am_leader`:
`return self.redis_manager.get_value(self.leader_key).decode() == self.unique_id`.
When GET returns `None` the `.decode()` call raises `AttributeError`;
the raise is modelled by `none`, a normal return of `b` by `some b`. -/
def i_am_leader (uid inst : String) (s : Store) : Option Bool :=
  match get_value s (leader_key uid) with
  | none => none
  | some v => some (decide (v = self_id uid inst))

/-- Tail shared verbatim by both `cleanup` variants: delete the
heartbeat key if its GET is truthy, then delete the leader key if its
GET is truthy. -/
def cleanup_deletes (uid : String) (s1 : Store) : Store :=
  let s2 := if truthy (get_value s1 (heartbeat_key uid))
            then delete s1 (heartbeat_key uid) else s1
  if truthy (get_value s2 (leader_key uid))
  then delete s2 (leader_key uid) else s2

/-- Store effect of the docker `LeaderElection.cleanup` (the thread stop
that follows these store operations is modelled separately):
compare-and-delete the leader key, then the two conditional deletes. -/
def cleanup_store_docker (uid inst : String) (s : Store) : Store :=
  cleanup_deletes uid (release_lock s (leader_key uid) (self_id uid inst))

/-- Store effect of the aws_impl `LeaderElection.cleanup`: identical to
the docker variant except `release_lock` is called twice in a row. -/
def cleanup_store_aws (uid inst : String) (s : Store) : Store :=
  cleanup_deletes uid
    (release_lock (release_lock s (leader_key uid) (self_id uid inst))
      (leader_key uid) (self_id uid inst))

/- ### Heartbeat loops

External interference while a loop sleeps is a list `env` of store
transformers, one applied per iteration; its length is the fuel. Each
function also counts how many heartbeat writes the loop performed. -/

/-- Truthiness-then-decode guard `current_leader and
current_leader.decode() == self.unique_id` used by both heartbeat loops. -/
def hb_cond (sid : String) : Option String → Bool
  | none => false
  | some v => if v = "" then false else decide (v = sid)

/-- Docker `LeaderElection.send_heartbeats` with the stop event never set:
each iteration re-reads the leader key; on a match it writes
`heartbeat_key = "alive"` with TTL 5 and sleeps (the environment acts),
otherwise it breaks out of the loop. -/
def send_heartbeats_docker (uid inst : String) :
    List (Store → Store) → Store → Store × Nat
  | [], s => (s, 0)
  | f :: rest, s =>
    if hb_cond (self_id uid inst) (get_value s (leader_key uid)) then
      ((send_heartbeats_docker uid inst rest
          (f (set_value s (heartbeat_key uid) "alive" 5))).1,
       (send_heartbeats_docker uid inst rest
          (f (set_value s (heartbeat_key uid) "alive" 5))).2 + 1)
    else (s, 0)

/-- Loop of the aws_impl `LeaderElection.send_heartbeats`: the leader
value `cl` was read ONCE before the loop and the `while` condition keeps
testing that same local variable, never re-reading the store. -/
def send_heartbeats_aws_loop (uid inst : String) (cl : Option String) :
    List (Store → Store) → Store → Store × Nat
  | [], s => (s, 0)
  | f :: rest, s =>
    if hb_cond (self_id uid inst) cl then
      ((send_heartbeats_aws_loop uid inst cl rest
          (f (set_value s (heartbeat_key uid) "alive" 5))).1,
       (send_heartbeats_aws_loop uid inst cl rest
          (f (set_value s (heartbeat_key uid) "alive" 5))).2 + 1)
    else (s, 0)

/-- aws_impl `LeaderElection.send_heartbeats`: a single read of the
leader key feeds every iteration of the loop. -/
def send_heartbeats_aws (uid inst : String)
    (env : List (Store → Store)) (s : Store) : Store × Nat :=
  send_heartbeats_aws_loop uid inst (get_value s (leader_key uid)) env s

/- ### Follower monitor loop -/

/-- Loop of `LeaderElection.monitor_leader` (both variants are
identical): `cl` is the leader value read once before the loop and never
refreshed; only the heartbeat value `hb` is re-read each iteration. The
result is `some n` when the loop exits after `n` iterations and `none`
when the environment fuel runs out with the loop still spinning. -/
def monitor_loop (uid : String) (cl : Option String) :
    List (Store → Store) → Option String → Store → Nat → Option Nat
  | [], hb, _, n =>
    if truthy cl && (hb == some "alive") then none else some n
  | f :: rest, hb, s, n =>
    if truthy cl && (hb == some "alive") then
      monitor_loop uid cl rest (get_value (f s) (heartbeat_key uid)) (f s) (n + 1)
    else some n

/-- `LeaderElection.monitor_leader`: read the leader key and the
heartbeat key once, then loop re-reading only the heartbeat key. -/
def monitor_leader (uid : String)
    (env : List (Store → Store)) (s : Store) : Option Nat :=
  monitor_loop uid (get_value s (leader_key uid)) env
    (get_value s (heartbeat_key uid)) s 0

/- ### Config managers -/

/-- docker `LocalConfigManager.get_parameter`: `os.getenv` then
`if not value: raise`, so both an absent variable and an empty string
raise; otherwise the value is returned. -/
def local_get_parameter (env : String → Option String)
    (name : String) : Except String String :=
  match env name with
  | some v => if v = "" then Except.error "parameter not found" else Except.ok v
  | none => Except.error "parameter not found"

/-- aws_impl `SSMConfigManager.get_parameter`: the SSM call either yields
a value or raises; the surrounding `try/except` logs the exception and
falls through, returning `None`. -/
def ssm_get_parameter (fetch : String → Except String String)
    (name : String) : Option String :=
  match fetch name with
  | Except.ok v => some v
  | Except.error _ => none

/- ### Two-thread interleaving machine for heartbeat vs cleanup

The docker variant runs `send_heartbeats` on a second thread while the
main thread may run `cleanup`. Each Redis call is one atomic step; the
scheduler picks which thread steps next. -/

/-- Program counter of the heartbeat thread: `ready` is the top of the
loop (stop-event check then leader read), `armed` is between a
successful leader check and the heartbeat SET, `exited` is after the
loop broke or the stop event was observed. -/
inductive HbPc
  | ready
  | armed
  | exited
deriving DecidableEq, Repr

/-- Joint state: the shared store, the heartbeat thread's counter, the
`stop_event` flag, and the cleanup thread's counter (0 = before
`release_lock`, 1 = before the heartbeat-key delete, 2 = before the
leader-key delete, 3 = before `stop_event.set()`, 4 = in `join`,
5 = cleanup returned). -/
structure Sys where
  store : Store
  hbPc : HbPc
  stopFlag : Bool
  clPc : Nat
deriving DecidableEq, Repr

/-- One atomic step of the docker heartbeat loop. -/
def hb_step (uid inst : String) (σ : Sys) : Sys :=
  match σ.hbPc with
  | HbPc.ready =>
    if σ.stopFlag then { σ with hbPc := HbPc.exited }
    else if hb_cond (self_id uid inst) (get_value σ.store (leader_key uid)) then
      { σ with hbPc := HbPc.armed }
    else { σ with hbPc := HbPc.exited }
  | HbPc.armed =>
    { σ with store := set_value σ.store (heartbeat_key uid) "alive" 5,
             hbPc := HbPc.ready }
  | HbPc.exited => σ

/-- One atomic step of the docker `cleanup` body, in source order:
release, conditional heartbeat delete, conditional leader delete, and
only then `stop_heartbeat_thread` (set the event, join). -/
def cl_step (uid inst : String) (σ : Sys) : Sys :=
  match σ.clPc with
  | 0 => { σ with store := release_lock σ.store (leader_key uid) (self_id uid inst),
                  clPc := 1 }
  | 1 => { σ with store := if truthy (get_value σ.store (heartbeat_key uid))
                           then delete σ.store (heartbeat_key uid) else σ.store,
                  clPc := 2 }
  | 2 => { σ with store := if truthy (get_value σ.store (leader_key uid))
                           then delete σ.store (leader_key uid) else σ.store,
                  clPc := 3 }
  | 3 => { σ with stopFlag := true, clPc := 4 }
  | 4 => if σ.hbPc = HbPc.exited then { σ with clPc := 5 } else σ
  | _ => σ

/-- Thread identifiers for the scheduler. -/
inductive Tid
  | hb
  | cl
deriving DecidableEq, Repr

/-- Run a schedule: at each step the named thread executes one atomic
action. -/
def sys_run (uid inst : String) : List Tid → Sys → Sys
  | [], σ => σ
  | Tid.hb :: rest, σ => sys_run uid inst rest (hb_step uid inst σ)
  | Tid.cl :: rest, σ => sys_run uid inst rest (cl_step uid inst σ)

/- ### Election lemmas -/

theorem elect_attempt_present (uid inst : String) (s : Store)
    (h : get_value s (leader_key uid) ≠ none) :
    elect_attempt uid inst s = (s, false) := by
  cases heq : get_value s (leader_key uid) with
  | none => exact absurd heq h
  | some v => simp [elect_attempt, heq]

theorem elect_count_present (uid : String) (insts : List String) (s : Store)
    (h : get_value s (leader_key uid) ≠ none) :
    elect_count uid insts s = (s, 0) := by
  induction insts with
  | nil => rfl
  | cons i rest ih => simp [elect_count, elect_attempt_present uid i s h, ih]

theorem elect_attempt_absent (uid inst : String) (s : Store)
    (h : get_value s (leader_key uid) = none) :
    elect_attempt uid inst s
      = ((leader_key uid, self_id uid inst, 120) :: s, true) := by
  simp [elect_attempt, h, acquire_leader, acquire_lock]

theorem elect_count_le_one (uid : String) (insts : List String) (s : Store) :
    (elect_count uid insts s).2 ≤ 1 := by
  cases insts with
  | nil => simp [elect_count]
  | cons i rest =>
    cases heq : get_value s (leader_key uid) with
    | some v =>
      have ha : elect_attempt uid i s = (s, false) :=
        elect_attempt_present uid i s (by simp [heq])
      have hc : elect_count uid rest s = (s, 0) :=
        elect_count_present uid rest s (by simp [heq])
      simp [elect_count, ha, hc]
    | none =>
      have ha := elect_attempt_absent uid i s heq
      have hp : get_value ((leader_key uid, self_id uid i, 120) :: s)
          (leader_key uid) = some (self_id uid i) :=
        get_value_cons_self s (leader_key uid) (self_id uid i) 120
      have hc : elect_count uid rest ((leader_key uid, self_id uid i, 120) :: s)
          = ((leader_key uid, self_id uid i, 120) :: s, 0) :=
        elect_count_present uid rest _ (by simp [hp])
      simp [elect_count, ha, hc]

/- ### Claim theorems -/

/-- Claim C1: `acquire_lock` creates the key with the given value only
when the key is absent and returns true iff this call created it; on a
present key the store is returned unchanged with a non-true reply.
Consequently a sequence of `elect_leader` attempts by any processes
against the same task id contains at most one successful acquire. -/
theorem acquire_lock_mutual_exclusion (s : Store) (k v : String) (t : Nat)
    (uid : String) (insts : List String) :
    (get_value s k = none →
      acquire_lock s k v t = ((k, v, t) :: s, true) ∧
      get_value (acquire_lock s k v t).1 k = some v) ∧
    (get_value s k ≠ none → acquire_lock s k v t = (s, false)) ∧
    (elect_count uid insts s).2 ≤ 1 := by
  refine ⟨fun h => ?_, fun h => ?_, elect_count_le_one uid insts s⟩
  · constructor
    · simp [acquire_lock, h]
    · simp [acquire_lock, h, get_value_cons_self]
  · cases heq : get_value s k with
    | none => exact absurd heq h
    | some w => simp [acquire_lock, heq]

/-- Witness for C1 at a concrete store: an acquire on an absent key
creates it and reports true; an acquire on the resulting store fails and
changes nothing; three election attempts from the empty store produce at
most one success. -/
theorem acquire_lock_mutual_exclusion_witness :
    (acquire_lock [] "Api_leader" "Api_A" 120
        = ([("Api_leader", "Api_A", 120)], true) ∧
      get_value (acquire_lock [] "Api_leader" "Api_A" 120).1 "Api_leader"
        = some "Api_A") ∧
    acquire_lock [("Api_leader", "Api_A", 120)] "Api_leader" "Api_B" 120
      = ([("Api_leader", "Api_A", 120)], false) ∧
    (elect_count "Api" ["A", "B", "C"] []).2 ≤ 1 :=
  ⟨(acquire_lock_mutual_exclusion [] "Api_leader" "Api_A" 120 "Api" []).1 rfl,
   (acquire_lock_mutual_exclusion [("Api_leader", "Api_A", 120)]
      "Api_leader" "Api_B" 120 "Api" []).2.1 (by decide),
   (acquire_lock_mutual_exclusion [] "k" "v" 1 "Api" ["A", "B", "C"]).2.2⟩

/-- Claim C2: `release_lock` deletes the key iff its current value
equals the expected value; with a stale expected value, or on an absent
key, the whole store is left unchanged; other keys are never affected. -/
theorem release_lock_compare_and_delete (s : Store) (k v k2 : String) :
    (get_value s k = some v → get_value (release_lock s k v) k = none) ∧
    (get_value s k ≠ some v → release_lock s k v = s) ∧
    (k2 ≠ k → get_value (release_lock s k v) k2 = get_value s k2) := by
  refine ⟨fun h => ?_, fun h => ?_, fun h => ?_⟩
  · simp [release_lock, h, get_value_delete_self]
  · simp [release_lock, h]
  · by_cases hg : get_value s k = some v
    · simp [release_lock, hg, get_value_delete_other s k k2 h]
    · simp [release_lock, hg]

/-- Witness for C2: a matching release removes the key; a stale release
and a release on an absent key change nothing; an unrelated key survives
a matching release. -/
theorem release_lock_compare_and_delete_witness :
    get_value (release_lock [("lock", "a", 10)] "lock" "a") "lock" = none ∧
    release_lock [("lock", "a", 10)] "lock" "b" = [("lock", "a", 10)] ∧
    release_lock [] "lock" "a" = [] ∧
    get_value (release_lock [("lock", "a", 10), ("other", "x", 1)] "lock" "a")
      "other" = get_value [("lock", "a", 10), ("other", "x", 1)] "other" :=
  ⟨(release_lock_compare_and_delete [("lock", "a", 10)] "lock" "a" "z").1
      (by decide),
   (release_lock_compare_and_delete [("lock", "a", 10)] "lock" "b" "z").2.1
      (by decide),
   (release_lock_compare_and_delete [] "lock" "a" "z").2.1 (by decide),
   (release_lock_compare_and_delete [("lock", "a", 10), ("other", "x", 1)]
      "lock" "a" "other").2.2 (by decide)⟩

/-- Claim C10: compare-and-delete release is idempotent, so the aws
cleanup's duplicated `release_lock` call computes the same store as the
docker cleanup's single call. -/
theorem release_lock_idempotent (s : Store) (k v uid inst : String) :
    release_lock (release_lock s k v) k v = release_lock s k v ∧
    cleanup_store_aws uid inst s = cleanup_store_docker uid inst s := by
  refine ⟨release_lock_idem s k v, ?_⟩
  unfold cleanup_store_aws cleanup_store_docker
  rw [release_lock_idem]

/-- Claim C3 is refuted by the code: when the leader key is owned by
another process (`"Api_B"`), both `cleanup` variants run by host `A`
first no-op the compare-and-delete but then unconditionally delete the
present leader key, evicting the other owner instead of leaving the
entry unchanged. -/
theorem cleanup_store_evicts_foreign_leader :
    self_id "Api" "A" ≠ "Api_B" ∧
    get_value [(leader_key "Api", "Api_B", 120)] (leader_key "Api")
      = some "Api_B" ∧
    get_value (cleanup_store_docker "Api" "A"
        [(leader_key "Api", "Api_B", 120)]) (leader_key "Api") = none ∧
    get_value (cleanup_store_aws "Api" "A"
        [(leader_key "Api", "Api_B", 120)]) (leader_key "Api") = none :=
  ⟨by decide, rfl, rfl, rfl⟩

/-- Claim C4 is refuted by the code: `monitor_leader` reads the leader
key only once, before its loop, and re-reads only the heartbeat key
inside it; when the environment deletes the leader key during the first
sleep while the heartbeat stays `"alive"`, the loop is still spinning
two further iterations later (`none` = fuel exhausted, still looping)
instead of returning within one poll iteration. -/
theorem monitor_leader_ignores_leader_key_deletion :
    get_value
      (delete ([(leader_key "Api", "Api_B", 120),
                (heartbeat_key "Api", "alive", 5)] : Store) (leader_key "Api"))
      (leader_key "Api") = none ∧
    monitor_leader "Api"
      [fun s => delete s (leader_key "Api"), fun s => s, fun s => s]
      [(leader_key "Api", "Api_B", 120), (heartbeat_key "Api", "alive", 5)]
      = none :=
  ⟨rfl, rfl⟩

/-- Claim C5 is refuted by the aws_impl variant: with the environment
overwriting the leader key to `"Api_B"` during the first sleep, the
docker loop (which re-reads the leader key each iteration) writes the
heartbeat once, with value `"alive"` and TTL 5, and then exits without
writing again, but the aws loop keeps testing the value read before the
loop and writes a second heartbeat after leadership is lost. -/
theorem send_heartbeats_aws_writes_after_leadership_lost :
    (send_heartbeats_docker "Api" "A"
        [fun s => set_value s (leader_key "Api") "Api_B" 120, fun s => s]
        [(leader_key "Api", self_id "Api" "A", 120)]).2 = 1 ∧
    get_entry ((send_heartbeats_docker "Api" "A"
        [fun s => set_value s (leader_key "Api") "Api_B" 120, fun s => s]
        [(leader_key "Api", self_id "Api" "A", 120)]).1) (heartbeat_key "Api")
      = some ("alive", 5) ∧
    (send_heartbeats_aws "Api" "A"
        [fun s => set_value s (leader_key "Api") "Api_B" 120, fun s => s]
        [(leader_key "Api", self_id "Api" "A", 120)]).2 = 2 ∧
    get_value ((send_heartbeats_aws "Api" "A"
        [fun s => set_value s (leader_key "Api") "Api_B" 120, fun s => s]
        [(leader_key "Api", self_id "Api" "A", 120)]).1) (leader_key "Api")
      = some "Api_B" :=
  ⟨rfl, rfl, rfl, rfl⟩

/-- Claim C6 is refuted by the code: `i_am_leader` calls `.decode()` on
the GET result unconditionally, so an absent leader key raises
`AttributeError` (modelled by `none`) instead of returning false; with
the key present it compares the value against `self_id` correctly. -/
theorem i_am_leader_raises_on_absent_key :
    i_am_leader "Api" "A" [] = none ∧
    i_am_leader "Api" "A" [(leader_key "Api", self_id "Api" "A", 120)]
      = some true ∧
    i_am_leader "Api" "A" [(leader_key "Api", "Api_B", 120)] = some false :=
  ⟨rfl, by decide, by decide⟩

/-- Claim C7: `elect_leader` returns the store unchanged when the leader
key is present, and when it is absent issues the acquire of the leader
key to `self_id` with TTL 120, after which the key holds `self_id`. -/
theorem elect_leader_spec (uid inst : String) (s : Store) :
    (get_value s (leader_key uid) ≠ none → elect_leader uid inst s = s) ∧
    (get_value s (leader_key uid) = none →
      elect_leader uid inst s = (leader_key uid, self_id uid inst, 120) :: s ∧
      get_value (elect_leader uid inst s) (leader_key uid)
        = some (self_id uid inst)) := by
  refine ⟨fun h => ?_, fun h => ?_⟩
  · cases heq : get_value s (leader_key uid) with
    | none => exact absurd heq h
    | some v => simp [elect_leader, heq]
  · have he : elect_leader uid inst s
        = (leader_key uid, self_id uid inst, 120) :: s := by
      simp [elect_leader, h, acquire_leader, acquire_lock]
    refine ⟨he, ?_⟩
    rw [he]
    exact get_value_cons_self s (leader_key uid) (self_id uid inst) 120

/-- Witness for C7: with an existing foreign leader the election is a
no-op; from the empty store it installs this process as leader. -/
theorem elect_leader_spec_witness :
    elect_leader "Api" "A" [(leader_key "Api", "Api_B", 120)]
      = [(leader_key "Api", "Api_B", 120)] ∧
    get_value (elect_leader "Api" "A" []) (leader_key "Api")
      = some (self_id "Api" "A") :=
  ⟨(elect_leader_spec "Api" "A" [(leader_key "Api", "Api_B", 120)]).1
      (by decide),
   ((elect_leader_spec "Api" "A" []).2 rfl).2⟩

/-- Claim C8 is refuted by the code: docker `cleanup` performs its key
deletions BEFORE `stop_heartbeat_thread` sets the stop event and joins.
In the interleaving below the heartbeat thread passes its leader check,
cleanup then runs release and both deletions to completion, and the
in-flight heartbeat iteration writes the heartbeat key afterwards; the
schedule still lets cleanup finish its join, yet the heartbeat key is
present at the end. -/
theorem heartbeat_write_races_cleanup_deletion :
    (sys_run "Api" "A"
        [Tid.hb, Tid.cl, Tid.cl, Tid.cl, Tid.hb, Tid.cl, Tid.hb, Tid.cl]
        { store := [(leader_key "Api", self_id "Api" "A", 120),
                    (heartbeat_key "Api", "alive", 5)],
          hbPc := HbPc.ready, stopFlag := false, clPc := 0 }).clPc = 5 ∧
    (sys_run "Api" "A"
        [Tid.hb, Tid.cl, Tid.cl, Tid.cl, Tid.hb, Tid.cl, Tid.hb, Tid.cl]
        { store := [(leader_key "Api", self_id "Api" "A", 120),
                    (heartbeat_key "Api", "alive", 5)],
          hbPc := HbPc.ready, stopFlag := false, clPc := 0 }).hbPc
      = HbPc.exited ∧
    get_value (sys_run "Api" "A"
        [Tid.hb, Tid.cl, Tid.cl, Tid.cl, Tid.hb, Tid.cl, Tid.hb, Tid.cl]
        { store := [(leader_key "Api", self_id "Api" "A", 120),
                    (heartbeat_key "Api", "alive", 5)],
          hbPc := HbPc.ready, stopFlag := false, clPc := 0 }).store
      (heartbeat_key "Api") = some "alive" :=
  ⟨rfl, rfl, rfl⟩

/-- Claim C9 is refuted by the aws_impl variant: the docker config
manager raises on an unknown (or empty) parameter name, but
`SSMConfigManager.get_parameter` catches the lookup error, logs it, and
silently returns `None` instead of raising. -/
theorem ssm_get_parameter_swallows_unknown_name :
    local_get_parameter (fun _ => none) "APP_CONFIG_REDIS_ENDPOINT"
      = Except.error "parameter not found" ∧
    local_get_parameter (fun _ => some "addr:6379") "APP_CONFIG_REDIS_ENDPOINT"
      = Except.ok "addr:6379" ∧
    ssm_get_parameter (fun _ => Except.error "ParameterNotFound")
      "/app/config/redis_endpoint" = none :=
  ⟨rfl, rfl, rfl⟩

end RedisLocking
